import Mathlib

/-!
Shallow embedding of the client-side result projection of the Format repository
(file index3.html, function displayResults, and the two form submit handlers).

JSON field values are modelled by the type JSValue: a value is either absent
(undefined), null, a string, or an integer number.  JavaScript truthiness and
template-literal string conversion are modelled explicitly, as is the behaviour
of parseInt followed by the or-zero fallback used for the Qty summation.
-/

set_option autoImplicit false

namespace Format

/-- A JSON field value as seen by the JavaScript code: absent (undefined),
null, a string, or an integer number. -/
inductive JSValue where
  | vUndef : JSValue
  | vNull : JSValue
  | vStr : String → JSValue
  | vNum : Int → JSValue
  deriving DecidableEq, Repr

/-- JavaScript truthiness of a field value: undefined, null, the empty string
and the number 0 are falsy, everything else is truthy. -/
def truthy : JSValue → Bool
  | JSValue.vUndef => false
  | JSValue.vNull => false
  | JSValue.vStr s => s ≠ ""
  | JSValue.vNum n => n ≠ 0

/-- String conversion of a field value as performed by a template literal. -/
def toStr : JSValue → String
  | JSValue.vUndef => "undefined"
  | JSValue.vNull => "null"
  | JSValue.vStr s => s
  | JSValue.vNum n => toString n

/-- Value of a hexadecimal digit character, if it is one. -/
def hexDigitVal (c : Char) : Option Nat :=
  if c.isDigit then some (c.toNat - 48)
  else if 'a' ≤ c ∧ c ≤ 'f' then some (c.toNat - 87)
  else if 'A' ≤ c ∧ c ≤ 'F' then some (c.toNat - 55)
  else none

/-- Longest prefix of digit values in the given base. -/
def takeDigits (base : Nat) : List Char → List Nat
  | [] => []
  | c :: cs =>
    match hexDigitVal c with
    | some d => if d < base then d :: takeDigits base cs else []
    | none => []

/-- Whitespace characters skipped by parseInt. -/
def isJsSpace (c : Char) : Bool :=
  c = ' ' || c = '\t' || c = '\n' || c = '\r'

/-- Sign prefix of a character list: returns the sign and the rest. -/
def splitSign : List Char → Int × List Char
  | '-' :: cs => (-1, cs)
  | '+' :: cs => (1, cs)
  | cs => (1, cs)

/-- Base prefix of a character list: a 0x or 0X prefix selects base 16. -/
def splitBase : List Char → Nat × List Char
  | '0' :: 'x' :: cs => (16, cs)
  | '0' :: 'X' :: cs => (16, cs)
  | cs => (10, cs)

/-- JavaScript parseInt on a string: skip whitespace, read an optional sign,
an optional hex prefix, then the longest digit prefix; none models NaN. -/
def jsParseIntStr (s : String) : Option Int :=
  let cs := s.toList.dropWhile isJsSpace
  let sc := splitSign cs
  let bc := splitBase sc.2
  let ds := takeDigits bc.1 bc.2
  if ds.isEmpty then none
  else some (sc.1 * (Int.ofNat (ds.foldl (fun a d => a * bc.1 + d) 0)))

/-- JavaScript parseInt on a field value: a number is converted to its string
form first (the identity on integers), undefined and null have no digit
prefix and give NaN. -/
def jsParseInt : JSValue → Option Int
  | JSValue.vStr s => jsParseIntStr s
  | JSValue.vNum n => some n
  | JSValue.vUndef => none
  | JSValue.vNull => none

/-- The expression parseInt v with an or-zero fallback, as used for Qty:
NaN collapses to 0. -/
def jsParseIntOr0 (v : JSValue) : Int :=
  (jsParseInt v).getD 0

/-- A reference entry of the payload: page, No and Reference_Code fields. -/
structure ReferenceEntry where
  page : JSValue
  no : JSValue
  referenceCode : JSValue
  deriving DecidableEq, Repr

/-- A glass entry of the payload: foreign-key fields ref_no and ref_code and
the three measurement fields GW, GH and Qty. -/
structure GlassEntry where
  ref_no : JSValue
  ref_code : JSValue
  GW : JSValue
  GH : JSValue
  Qty : JSValue
  deriving DecidableEq, Repr

/-- The data object of a successful response: the two collections (absent
collections modelled by none) and the total_references scalar. -/
structure Payload where
  reference_code : Option (List ReferenceEntry)
  glass_data : Option (List GlassEntry)
  total_references : JSValue
  deriving DecidableEq, Repr

/-- Composite key of a glass entry, built by the template literal joining
ref_no and ref_code with a dash. -/
def glassKey (g : GlassEntry) : String :=
  toStr g.ref_no ++ "-" ++ toStr g.ref_code

/-- Composite key of a reference entry, built by the template literal joining
No and Reference_Code with a dash. -/
def refKey (r : ReferenceEntry) : String :=
  toStr r.no ++ "-" ++ toStr r.referenceCode

/-- Test applied before pushing a glass entry into its bucket and again before
emitting a row: at least one measurement field is truthy. -/
def hasMeasurement (g : GlassEntry) : Bool :=
  truthy g.GW || truthy g.GH || truthy g.Qty

/-- The bucket of the glassByRef map for a given key: the glass entries whose
own key equals it and that have at least one truthy measurement, in payload
order.  The JavaScript builds the map by a single forEach that pushes exactly
these entries in this order. -/
def glassByRef (gs : List GlassEntry) (k : String) : List GlassEntry :=
  gs.filter (fun g => glassKey g == k && hasMeasurement g)

/-- The glass_data collection, an empty list when absent. -/
def glassList (p : Payload) : List GlassEntry :=
  p.glass_data.getD []

/-- The filtered reference list: reference entries whose bucket is non-empty,
in payload order. -/
def referencesWithGlass (p : Payload) : List ReferenceEntry :=
  (p.reference_code.getD []).filter
    (fun r => (glassByRef (glassList p) (refKey r)).length > 0)

/-- One emitted table row: the 1-based index, the three fields copied from the
reference entry and the three raw measurement values of the glass entry. -/
structure DisplayRow where
  index : Nat
  page : JSValue
  no : JSValue
  referenceCode : JSValue
  GW : JSValue
  GH : JSValue
  Qty : JSValue
  deriving DecidableEq, Repr

/-- Text rendered in a measurement cell: the expression value or dash. -/
def cellText (v : JSValue) : String :=
  if truthy v then toStr v else "-"

/-- The row built for a reference entry and a glass entry at a given index. -/
def mkRow (i : Nat) (r : ReferenceEntry) (g : GlassEntry) : DisplayRow :=
  { index := i, page := r.page, no := r.no, referenceCode := r.referenceCode,
    GW := g.GW, GH := g.GH, Qty := g.Qty }

/-- Mutable state of the row-emission loops: rows built so far, the running
rowIndex (starting at 1), and the two running totals. -/
structure EmitState where
  rows : List DisplayRow
  rowIndex : Nat
  totalGlassCount : Int
  totalRecords : Nat
  deriving DecidableEq, Repr

/-- Body of the inner forEach: emit a row for a glass entry when it has a
truthy measurement, bumping the index and both totals. -/
def emitGlass (r : ReferenceEntry) (s : EmitState) (g : GlassEntry) : EmitState :=
  if hasMeasurement g then
    { rows := s.rows ++ [mkRow s.rowIndex r g],
      rowIndex := s.rowIndex + 1,
      totalGlassCount := s.totalGlassCount + jsParseIntOr0 g.Qty,
      totalRecords := s.totalRecords + 1 }
  else s

/-- Body of the outer forEach: run the inner loop over the bucket of the
reference entry.  When the map has no bucket for the key the inner loop runs
over the empty list, matching the guard in the source. -/
def emitRef (gs : List GlassEntry) (s : EmitState) (r : ReferenceEntry) : EmitState :=
  (glassByRef gs (refKey r)).foldl (emitGlass r) s

/-- Outcome of displayResults: the populated table with its three summary
numbers, or one of the two placeholder screens (both of which leave the
summary section hidden). -/
inductive ProjectionResult where
  | noData : ProjectionResult
  | noCompleteGlass : ProjectionResult
  | table : List DisplayRow → Int → Nat → JSValue → ProjectionResult
  deriving DecidableEq, Repr

/-- Placeholder text shown when the payload has no reference_code entries. -/
def noDataMessage : String := "ไม่พบข้อมูล"

/-- Placeholder text shown when no reference entry survives the filter. -/
def noCompleteGlassMessage : String := "ไม่พบข้อมูล GLASS ที่สมบูรณ์"

/-- The placeholder text of a projection outcome, none for the table. -/
def placeholderMessage : ProjectionResult → Option String
  | ProjectionResult.noData => some noDataMessage
  | ProjectionResult.noCompleteGlass => some noCompleteGlassMessage
  | ProjectionResult.table _ _ _ _ => none

/-- Whether the summary section is displayed for an outcome. -/
def summaryShown : ProjectionResult → Bool
  | ProjectionResult.table _ _ _ _ => true
  | _ => false

/-- The displayResults function of index3.html as a pure projection of the
payload: group glass entries by key, filter the reference entries, and either
emit the table rows with the summary numbers or show a placeholder. -/
def displayResults (p : Payload) : ProjectionResult :=
  match p.reference_code with
  | none => ProjectionResult.noData
  | some refs =>
    if refs.length > 0 then
      if (referencesWithGlass p).length > 0 then
        let s := (referencesWithGlass p).foldl (emitRef (glassList p))
          { rows := [], rowIndex := 1, totalGlassCount := 0, totalRecords := 0 }
        ProjectionResult.table s.rows s.totalGlassCount s.totalRecords p.total_references
      else ProjectionResult.noCompleteGlass
    else ProjectionResult.noData

/-- Rows built for one reference entry from a list of glass entries, indexed
consecutively from i. -/
def mkRows (i : Nat) (r : ReferenceEntry) : List GlassEntry → List DisplayRow
  | [] => []
  | g :: gs => mkRow i r g :: mkRows (i + 1) r gs

/-- Sum of the parsed Qty values of a list of glass entries. -/
def qtySum (l : List GlassEntry) : Int :=
  (l.map (fun g => jsParseIntOr0 g.Qty)).sum

/-- Number of rows contributed by a list of reference entries. -/
def recCount (gs : List GlassEntry) (rs : List ReferenceEntry) : Nat :=
  (rs.map (fun r => (glassByRef gs (refKey r)).length)).sum

/-- Total parsed Qty contributed by a list of reference entries. -/
def glassSum (gs : List GlassEntry) (rs : List ReferenceEntry) : Int :=
  (rs.map (fun r => qtySum (glassByRef gs (refKey r)))).sum

/-- All rows emitted for a list of reference entries, blocks in order, indexed
consecutively from i. -/
def allRows (gs : List GlassEntry) (i : Nat) : List ReferenceEntry → List DisplayRow
  | [] => []
  | r :: rest =>
    mkRows i r (glassByRef gs (refKey r)) ++
      allRows gs (i + (glassByRef gs (refKey r)).length) rest

theorem foldl_emitGlass (r : ReferenceEntry) (l : List GlassEntry)
    (hl : ∀ g ∈ l, hasMeasurement g = true) (s : EmitState) :
    l.foldl (emitGlass r) s =
      { rows := s.rows ++ mkRows s.rowIndex r l,
        rowIndex := s.rowIndex + l.length,
        totalGlassCount := s.totalGlassCount + qtySum l,
        totalRecords := s.totalRecords + l.length } := by
  induction l generalizing s with
  | nil => simp [mkRows, qtySum]
  | cons g gs ih =>
    have hg : hasMeasurement g = true := hl g (List.mem_cons_self g gs)
    have hgs : ∀ g2 ∈ gs, hasMeasurement g2 = true :=
      fun g2 h2 => hl g2 (List.mem_cons_of_mem g h2)
    rw [List.foldl_cons, emitGlass, if_pos hg, ih hgs]
    simp only [EmitState.mk.injEq]
    refine ⟨?_, ?_, ?_, ?_⟩
    · simp [mkRows]
    · simp [List.length_cons]
      omega
    · simp [qtySum, List.sum_cons]
      ring
    · simp [List.length_cons]
      omega

theorem mem_glassByRef {gs : List GlassEntry} {k : String} {g : GlassEntry}
    (h : g ∈ glassByRef gs k) :
    g ∈ gs ∧ glassKey g = k ∧ hasMeasurement g = true := by
  have h2 := List.mem_filter.mp h
  refine ⟨h2.1, ?_, ?_⟩
  · have := h2.2
    simp only [Bool.and_eq_true, beq_iff_eq] at this
    exact this.1
  · have := h2.2
    simp only [Bool.and_eq_true] at this
    exact this.2

theorem foldl_emitRef (gs : List GlassEntry) (rs : List ReferenceEntry)
    (s : EmitState) :
    rs.foldl (emitRef gs) s =
      { rows := s.rows ++ allRows gs s.rowIndex rs,
        rowIndex := s.rowIndex + recCount gs rs,
        totalGlassCount := s.totalGlassCount + glassSum gs rs,
        totalRecords := s.totalRecords + recCount gs rs } := by
  induction rs generalizing s with
  | nil => simp [allRows, recCount, glassSum]
  | cons r rest ih =>
    have hl : ∀ g ∈ glassByRef gs (refKey r), hasMeasurement g = true :=
      fun g hg => (mem_glassByRef hg).2.2
    rw [List.foldl_cons, emitRef, foldl_emitGlass r _ hl, ih]
    simp [allRows, recCount, glassSum, List.sum_cons]
    refine ⟨?_, ?_, ?_⟩
    · omega
    · ring
    · omega

/-- Characterization of the table outcome: when at least one reference entry
survives the filter, displayResults emits exactly the structured row list and
the corresponding totals. -/
theorem displayResults_table (p : Payload)
    (h : referencesWithGlass p ≠ []) :
    displayResults p =
      ProjectionResult.table
        (allRows (glassList p) 1 (referencesWithGlass p))
        (glassSum (glassList p) (referencesWithGlass p))
        (recCount (glassList p) (referencesWithGlass p))
        p.total_references := by
  have hpos : (referencesWithGlass p).length > 0 := List.length_pos.mpr h
  unfold displayResults
  split
  · next heq =>
    exfalso
    apply h
    unfold referencesWithGlass
    rw [heq]
    rfl
  · next refs heq =>
    have hrefs : refs.length > 0 := by
      by_contra hc
      apply h
      unfold referencesWithGlass
      rw [heq]
      have hnil : refs = [] := List.length_eq_zero.mp (Nat.le_zero.mp (Nat.not_lt.mp hc))
      simp [hnil]
    rw [if_pos hrefs, if_pos hpos]
    simp only [foldl_emitRef]
    simp

/-- Inversion of the table outcome: any table produced by displayResults has
the structured row list and totals, and its reference list passed through the
filter non-trivially. -/
theorem table_inv {p : Payload} {rows : List DisplayRow} {tg : Int}
    {tr : Nat} {trf : JSValue}
    (h : displayResults p = ProjectionResult.table rows tg tr trf) :
    referencesWithGlass p ≠ [] ∧
    rows = allRows (glassList p) 1 (referencesWithGlass p) ∧
    tg = glassSum (glassList p) (referencesWithGlass p) ∧
    tr = recCount (glassList p) (referencesWithGlass p) ∧
    trf = p.total_references := by
  by_cases hs : referencesWithGlass p = []
  · exfalso
    unfold displayResults at h
    split at h
    · exact ProjectionResult.noConfusion h
    · split at h
      · split at h
        · next hc =>
          rw [hs] at hc
          simp at hc
        · exact ProjectionResult.noConfusion h
      · exact ProjectionResult.noConfusion h
  · have := displayResults_table p hs
    rw [this] at h
    injection h with h1 h2 h3 h4
    exact ⟨hs, h1.symm, h2.symm, h3.symm, h4.symm⟩

theorem mkRows_length (i : Nat) (r : ReferenceEntry) (l : List GlassEntry) :
    (mkRows i r l).length = l.length := by
  induction l generalizing i with
  | nil => rfl
  | cons g gs ih => simp [mkRows, ih]

theorem allRows_length (gs : List GlassEntry) (i : Nat)
    (rs : List ReferenceEntry) :
    (allRows gs i rs).length = recCount gs rs := by
  induction rs generalizing i with
  | nil => rfl
  | cons r rest ih =>
    simp [allRows, recCount, mkRows_length, ih]

theorem recCount_cons (gs : List GlassEntry) (r : ReferenceEntry)
    (rest : List ReferenceEntry) :
    recCount gs (r :: rest) =
      (glassByRef gs (refKey r)).length + recCount gs rest := by
  simp [recCount]

theorem glassSum_cons (gs : List GlassEntry) (r : ReferenceEntry)
    (rest : List ReferenceEntry) :
    glassSum gs (r :: rest) =
      qtySum (glassByRef gs (refKey r)) + glassSum gs rest := by
  simp [glassSum]

theorem mkRows_map_index (i : Nat) (r : ReferenceEntry) (l : List GlassEntry) :
    (mkRows i r l).map DisplayRow.index = List.range' i l.length := by
  induction l generalizing i with
  | nil => rfl
  | cons g gs ih =>
    simp [mkRows, List.range'_succ, mkRow, ih]

theorem allRows_map_index (gs : List GlassEntry) (i : Nat)
    (rs : List ReferenceEntry) :
    (allRows gs i rs).map DisplayRow.index = List.range' i (recCount gs rs) := by
  induction rs generalizing i with
  | nil => rfl
  | cons r rest ih =>
    rw [allRows, List.map_append, mkRows_map_index, ih, recCount_cons,
      Nat.add_comm ((glassByRef gs (refKey r)).length) (recCount gs rest),
      ← List.range'_append_1]

theorem mem_mkRows {i : Nat} {r : ReferenceEntry} {l : List GlassEntry}
    {row : DisplayRow} (h : row ∈ mkRows i r l) :
    row.page = r.page ∧ row.no = r.no ∧ row.referenceCode = r.referenceCode ∧
      ∃ g ∈ l, row.GW = g.GW ∧ row.GH = g.GH ∧ row.Qty = g.Qty := by
  induction l generalizing i with
  | nil => cases h
  | cons g gs ih =>
    rw [mkRows] at h
    rcases List.mem_cons.mp h with h1 | h2
    · subst h1
      exact ⟨rfl, rfl, rfl, g, List.mem_cons_self g gs, rfl, rfl, rfl⟩
    · obtain ⟨hp, hn, hr, g2, hg2, hf⟩ := ih h2
      exact ⟨hp, hn, hr, g2, List.mem_cons_of_mem g hg2, hf⟩

theorem mem_allRows {gs : List GlassEntry} {i : Nat}
    {rs : List ReferenceEntry} {row : DisplayRow}
    (h : row ∈ allRows gs i rs) :
    ∃ r ∈ rs, row.page = r.page ∧ row.no = r.no ∧
      row.referenceCode = r.referenceCode ∧
      ∃ g ∈ glassByRef gs (refKey r), row.GW = g.GW ∧ row.GH = g.GH ∧
        row.Qty = g.Qty := by
  induction rs generalizing i with
  | nil => cases h
  | cons r rest ih =>
    rw [allRows] at h
    rcases List.mem_append.mp h with h1 | h2
    · obtain ⟨hp, hn, hr, g, hg, hf⟩ := mem_mkRows h1
      exact ⟨r, List.mem_cons_self r rest, hp, hn, hr, g, hg, hf⟩
    · obtain ⟨r2, hr2, rest2⟩ := ih h2
      exact ⟨r2, List.mem_cons_of_mem r hr2, rest2⟩

theorem mkRows_map_qty (i : Nat) (r : ReferenceEntry) (l : List GlassEntry) :
    (mkRows i r l).map (fun row => jsParseIntOr0 row.Qty) =
      l.map (fun g => jsParseIntOr0 g.Qty) := by
  induction l generalizing i with
  | nil => rfl
  | cons g gs ih => simp [mkRows, mkRow, ih]

theorem allRows_qty_sum (gs : List GlassEntry) (i : Nat)
    (rs : List ReferenceEntry) :
    ((allRows gs i rs).map (fun row => jsParseIntOr0 row.Qty)).sum =
      glassSum gs rs := by
  induction rs generalizing i with
  | nil => rfl
  | cons r rest ih =>
    rw [allRows, List.map_append, List.sum_append, mkRows_map_qty, ih,
      glassSum_cons, qtySum]

theorem mem_referencesWithGlass {p : Payload} {r : ReferenceEntry} :
    r ∈ referencesWithGlass p ↔
      r ∈ p.reference_code.getD [] ∧
        ∃ g ∈ glassList p, glassKey g = refKey r ∧ hasMeasurement g = true := by
  unfold referencesWithGlass
  rw [List.mem_filter]
  constructor
  · rintro ⟨hmem, hlen⟩
    refine ⟨hmem, ?_⟩
    simp only [decide_eq_true_eq] at hlen
    have hpos : 0 < (glassByRef (glassList p) (refKey r)).length := hlen
    obtain ⟨g, hg⟩ := List.exists_mem_of_length_pos hpos
    exact ⟨g, (mem_glassByRef hg).1, (mem_glassByRef hg).2⟩
  · rintro ⟨hmem, g, hg, hkey, hmeas⟩
    refine ⟨hmem, ?_⟩
    simp only [decide_eq_true_eq]
    have hgmem : g ∈ glassByRef (glassList p) (refKey r) := by
      rw [glassByRef, List.mem_filter]
      exact ⟨hg, by simp [hkey, hmeas]⟩
    exact List.length_pos.mpr (fun hnil => by rw [hnil] at hgmem; cases hgmem)

theorem referencesWithGlass_sublist (p : Payload) :
    (referencesWithGlass p).Sublist (p.reference_code.getD []) :=
  List.filter_sublist _

/-- Parsed JSON body of the upload response: the success flag, the optional
error and message strings, and the optional data object. -/
structure RespBody where
  success : Bool
  error : Option String
  message : Option String
  data : Option Payload
  deriving DecidableEq, Repr

/-- Outcome of the fetch call: a thrown network-level exception, or a response
with its ok flag and its body when it parses as JSON (none when the json call
throws). -/
inductive FetchOutcome where
  | networkError : FetchOutcome
  | response : Bool → Option RespBody → FetchOutcome
  deriving DecidableEq, Repr

/-- Generic message shown from the catch block (contacting the server failed). -/
def connectErrorMessage : String := "เกิดข้อผิดพลาดในการติดต่อกับเซิร์ฟเวอร์"

/-- Generic fallback shown when the response carries no error string. -/
def unknownErrorMessage : String := "เกิดข้อผิดพลาดที่ไม่ทราบสาเหตุ"

/-- JavaScript or-else on an optional string: an absent or empty string is
falsy and falls back to the default. -/
def jsOrElse (o : Option String) (d : String) : String :=
  match o with
  | some s => if s = "" then d else s
  | none => d

/-- Final visible state of the fixed UI regions after the submit handler. -/
structure SubmitUI where
  errorMessage : Option String
  successMessage : Option String
  resultsShown : Bool
  downloadShown : Bool
  projection : Option ProjectionResult
  deriving DecidableEq, Repr

/-- UI state after the handler lands in a failure path showing a message. -/
def failUI (msg : String) : SubmitUI :=
  { errorMessage := some msg, successMessage := none, resultsShown := false,
    downloadShown := false, projection := none }

/-- The submit handler of index3.html as a function of the fetch outcome.
The reset at the top of the handler hides every region; the branch on
response.ok together with result.success decides between rendering the
results and showing the error text, and the catch block covers the network
exception, a body that fails to parse as JSON, and the exception thrown by
displayResults when the data field is absent. -/
def handleSubmit : FetchOutcome → SubmitUI
  | FetchOutcome.networkError => failUI connectErrorMessage
  | FetchOutcome.response ok obody =>
    match obody with
    | none => failUI connectErrorMessage
    | some b =>
      if ok && b.success then
        match b.data with
        | none => failUI connectErrorMessage
        | some d =>
          { errorMessage := none, successMessage := b.message,
            resultsShown := true, downloadShown := true,
            projection := some (displayResults d) }
      else
        { errorMessage := some (jsOrElse b.error unknownErrorMessage),
          successMessage := none, resultsShown := false,
          downloadShown := false, projection := none }

/-- Outcome of the submit handler of app.js: it throws on a network failure,
on a non-2xx status and on a body that fails to parse, and otherwise only
logs the parsed body. -/
inductive AppOutcome where
  | thrown : AppOutcome
  | logged : AppOutcome
  deriving DecidableEq, Repr

/-- The form submit handler of app.js as a function of the fetch outcome. -/
def appJsHandle : FetchOutcome → AppOutcome
  | FetchOutcome.networkError => AppOutcome.thrown
  | FetchOutcome.response false _ => AppOutcome.thrown
  | FetchOutcome.response true none => AppOutcome.thrown
  | FetchOutcome.response true (some _) => AppOutcome.logged

/-- Reference entry with key 1-A used by several concrete payloads. -/
def ref5 : ReferenceEntry :=
  { page := JSValue.vNum 1, no := JSValue.vNum 1, referenceCode := JSValue.vStr "A" }

/-- Glass entry with key 1-A and measurements 10, 20 and 3. -/
def glass5 : GlassEntry :=
  { ref_no := JSValue.vNum 1, ref_code := JSValue.vStr "A",
    GW := JSValue.vStr "10", GH := JSValue.vStr "20", Qty := JSValue.vStr "3" }

/-- The payload of the one-reference one-glass example. -/
def p5 : Payload := ⟨some [ref5], some [glass5], JSValue.vNum 1⟩

/-- Same data but with a server-claimed total of 99 references. -/
def p4 : Payload := ⟨some [ref5], some [glass5], JSValue.vNum 99⟩

/-- A second glass entry under the same key. -/
def glass5b : GlassEntry :=
  { ref_no := JSValue.vNum 1, ref_code := JSValue.vStr "A",
    GW := JSValue.vStr "11", GH := JSValue.vStr "21", Qty := JSValue.vStr "2" }

/-- Payload with two glass entries matching the one reference entry. -/
def pMulti : Payload := ⟨some [ref5], some [glass5, glass5b], JSValue.vNum 1⟩

/-- The two rows emitted for pMulti. -/
def pMultiRows : List DisplayRow :=
  [{ index := 1, page := JSValue.vNum 1, no := JSValue.vNum 1,
     referenceCode := JSValue.vStr "A", GW := JSValue.vStr "10",
     GH := JSValue.vStr "20", Qty := JSValue.vStr "3" },
   { index := 2, page := JSValue.vNum 1, no := JSValue.vNum 1,
     referenceCode := JSValue.vStr "A", GW := JSValue.vStr "11",
     GH := JSValue.vStr "21", Qty := JSValue.vStr "2" }]

/-- Payload with no reference_code collection at all. -/
def pNoRef : Payload := ⟨none, none, JSValue.vNum 0⟩

/-- Glass entry whose measurements are all falsy. -/
def gFalsy : GlassEntry :=
  { ref_no := JSValue.vNum 1, ref_code := JSValue.vStr "A",
    GW := JSValue.vStr "", GH := JSValue.vNum 0, Qty := JSValue.vNull }

/-- Payload whose only matching glass entry has all-falsy measurements. -/
def pAllEmpty : Payload := ⟨some [ref5], some [gFalsy], JSValue.vNum 1⟩

/-- Glass entry with a truthy width but a Qty equal to the number 0. -/
def glassZeroQty : GlassEntry :=
  { ref_no := JSValue.vNum 1, ref_code := JSValue.vStr "A",
    GW := JSValue.vStr "10", GH := JSValue.vStr "20", Qty := JSValue.vNum 0 }

/-- Payload emitting one row whose Qty is the number 0. -/
def p7 : Payload := ⟨some [ref5], some [glassZeroQty], JSValue.vNum 1⟩

/-- Glass entry whose Qty is the non-numeric string abc. -/
def glassAbc : GlassEntry :=
  { ref_no := JSValue.vNum 1, ref_code := JSValue.vStr "A",
    GW := JSValue.vStr "10", GH := JSValue.vStr "20", Qty := JSValue.vStr "abc" }

/-- Payload emitting one row whose Qty is the string abc. -/
def pAbc : Payload := ⟨some [ref5], some [glassAbc], JSValue.vNum 1⟩

/-- The row emitted for pAbc. -/
def rowAbc : DisplayRow :=
  { index := 1, page := JSValue.vNum 1, no := JSValue.vNum 1,
    referenceCode := JSValue.vStr "A", GW := JSValue.vStr "10",
    GH := JSValue.vStr "20", Qty := JSValue.vStr "abc" }

/-- Reference entry whose No field itself contains the dash separator. -/
def ref9 : ReferenceEntry :=
  { page := JSValue.vNum 7, no := JSValue.vStr "1-2", referenceCode := JSValue.vStr "3" }

/-- Glass entry whose fields differ from those of ref9 but whose concatenated
key collides with its key. -/
def glass9 : GlassEntry :=
  { ref_no := JSValue.vStr "1", ref_code := JSValue.vStr "2-3",
    GW := JSValue.vStr "10", GH := JSValue.vStr "20", Qty := JSValue.vStr "5" }

/-- Payload exhibiting the separator collision. -/
def p9 : Payload := ⟨some [ref9], some [glass9], JSValue.vNum 1⟩

/-- Response body used in the error-path examples. -/
def body8 : RespBody := ⟨false, some "E1", none, none⟩

/-- Non-2xx response carrying a parseable body with success true and a
server-supplied error string. -/
def cexOutcome : FetchOutcome :=
  FetchOutcome.response false (some ⟨true, some "SERVER_SAYS_X", none, none⟩)

/-- The four falsy field values. -/
def falsyValues : List JSValue :=
  [JSValue.vUndef, JSValue.vNull, JSValue.vStr "", JSValue.vNum 0]

/-- The single row emitted for the p5 and p4 payloads. -/
def row5list : List DisplayRow :=
  [{ index := 1, page := JSValue.vNum 1, no := JSValue.vNum 1,
     referenceCode := JSValue.vStr "A", GW := JSValue.vStr "10",
     GH := JSValue.vStr "20", Qty := JSValue.vStr "3" }]

/-- Claim C1: a reference entry survives into the projected output exactly
when some glass entry with the same composite key has a truthy measurement
field, the surviving entries keep their payload order, every survivor has a
non-empty bucket of matched glass entries, and the emitted rows are exactly
the ordered blocks of the survivors. -/
theorem claim_C1 (p : Payload) (refs : List ReferenceEntry)
    (h : p.reference_code = some refs) :
    (referencesWithGlass p).Sublist refs ∧
    (∀ r, r ∈ referencesWithGlass p ↔
      r ∈ refs ∧ ∃ g ∈ glassList p, glassKey g = refKey r ∧ hasMeasurement g = true) ∧
    (∀ r ∈ referencesWithGlass p, glassByRef (glassList p) (refKey r) ≠ []) ∧
    (∀ rows tg tr trf, displayResults p = ProjectionResult.table rows tg tr trf →
      rows = allRows (glassList p) 1 (referencesWithGlass p)) := by
  have hgd : p.reference_code.getD [] = refs := by rw [h]; rfl
  refine ⟨?_, ?_, ?_, ?_⟩
  · have := referencesWithGlass_sublist p
    rwa [hgd] at this
  · intro r
    rw [mem_referencesWithGlass, hgd]
  · intro r hr
    obtain ⟨_, g, hg, hkey, hmeas⟩ := mem_referencesWithGlass.mp hr
    intro hnil
    have hgmem : g ∈ glassByRef (glassList p) (refKey r) := by
      rw [glassByRef, List.mem_filter]
      exact ⟨hg, by simp [hkey, hmeas]⟩
    rw [hnil] at hgmem
    cases hgmem
  · intro rows tg tr trf htab
    exact (table_inv htab).2.1

/-- Closed instance of claim C1 at the one-reference one-glass payload. -/
theorem claim_C1_witness :
    (referencesWithGlass p5).Sublist [ref5] :=
  (claim_C1 p5 [ref5] rfl).1

/-- Claim C2: the emitted rows carry the dense indices 1 to totalRecords in
emission order, totalRecords is the number of rows, the rows decompose into
the consecutive per-reference blocks, and every row copies the page, No and
Reference_Code fields of a surviving reference entry. -/
theorem claim_C2 (p : Payload) (rows : List DisplayRow) (tg : Int) (tr : Nat)
    (trf : JSValue)
    (h : displayResults p = ProjectionResult.table rows tg tr trf) :
    rows.map DisplayRow.index = List.range' 1 tr ∧
    tr = rows.length ∧
    rows = allRows (glassList p) 1 (referencesWithGlass p) ∧
    (∀ row ∈ rows, ∃ r ∈ referencesWithGlass p,
      row.page = r.page ∧ row.no = r.no ∧ row.referenceCode = r.referenceCode) := by
  obtain ⟨hne, hrows, htg, htr, htrf⟩ := table_inv h
  refine ⟨?_, ?_, hrows, ?_⟩
  · rw [hrows, htr, allRows_map_index]
  · rw [hrows, htr, allRows_length]
  · intro row hrow
    rw [hrows] at hrow
    obtain ⟨r, hr, hp, hn, hrc, _⟩ := mem_allRows hrow
    exact ⟨r, hr, hp, hn, hrc⟩

/-- Closed instance of claim C2 at the payload with two glass entries under
one reference entry: the two rows carry indices 1 and 2. -/
theorem claim_C2_witness :
    pMultiRows.map DisplayRow.index = List.range' 1 2 ∧ (2 : Nat) = pMultiRows.length :=
  ⟨(claim_C2 pMulti pMultiRows 5 2 (JSValue.vNum 1) (by decide)).1,
   (claim_C2 pMulti pMultiRows 5 2 (JSValue.vNum 1) (by decide)).2.1⟩

/-- Claim C3: totalGlassCount is the sum over emitted rows of the parsed Qty
value, where a value with no digit prefix parses as 0, and totalRecords is
the number of emitted rows. -/
theorem claim_C3 (p : Payload) (rows : List DisplayRow) (tg : Int) (tr : Nat)
    (trf : JSValue)
    (h : displayResults p = ProjectionResult.table rows tg tr trf) :
    tg = (rows.map (fun row => jsParseIntOr0 row.Qty)).sum ∧
    tr = rows.length ∧
    (∀ v : JSValue, jsParseInt v = none → jsParseIntOr0 v = 0) := by
  obtain ⟨hne, hrows, htg, htr, htrf⟩ := table_inv h
  refine ⟨?_, ?_, ?_⟩
  · rw [hrows, htg, allRows_qty_sum]
  · rw [hrows, htr, allRows_length]
  · intro v hv
    rw [jsParseIntOr0, hv]
    rfl

/-- Closed instance of claim C3 at the one-reference one-glass payload. -/
theorem claim_C3_witness :
    (3 : Int) = (row5list.map (fun row => jsParseIntOr0 row.Qty)).sum :=
  (claim_C3 p5 row5list 3 1 (JSValue.vNum 1) (by decide)).1

/-- Claim C4: the displayed totalReferences value is the total_references
field of the payload, taken verbatim. -/
theorem claim_C4 (p : Payload) (rows : List DisplayRow) (tg : Int) (tr : Nat)
    (trf : JSValue)
    (h : displayResults p = ProjectionResult.table rows tg tr trf) :
    trf = p.total_references :=
  (table_inv h).2.2.2.2

/-- Closed instance of claim C4 at a payload whose server-claimed total of 99
differs from the single emitted record. -/
theorem claim_C4_witness :
    JSValue.vNum 99 = p4.total_references ∧ (99 : Int) ≠ 1 :=
  ⟨claim_C4 p4 row5list 3 1 (JSValue.vNum 99) (by decide), by decide⟩

/-- Claim C5: the payload with one reference entry keyed 1-A and one glass
entry with measurements 10, 20 and 3 yields exactly one row with index 1,
totalGlassCount 3 and totalRecords 1. -/
theorem claim_C5 :
    displayResults p5 = ProjectionResult.table
      [{ index := 1, page := JSValue.vNum 1, no := JSValue.vNum 1,
         referenceCode := JSValue.vStr "A", GW := JSValue.vStr "10",
         GH := JSValue.vStr "20", Qty := JSValue.vStr "3" }]
      3 1 (JSValue.vNum 1) := by
  decide

/-- Claim C6: an absent or empty reference_code collection yields the no-data
placeholder, a payload whose matching glass entries all lack truthy
measurements yields the distinct no-complete-GLASS placeholder, and the
summary stays hidden in both cases. -/
theorem claim_C6 (p : Payload) :
    ((p.reference_code = none ∨ p.reference_code = some []) →
      displayResults p = ProjectionResult.noData ∧
      placeholderMessage (displayResults p) = some noDataMessage ∧
      summaryShown (displayResults p) = false) ∧
    (∀ refs, p.reference_code = some refs → refs ≠ [] →
      (∀ r ∈ refs, ∀ g ∈ glassList p, glassKey g = refKey r →
        hasMeasurement g = false) →
      displayResults p = ProjectionResult.noCompleteGlass ∧
      placeholderMessage (displayResults p) = some noCompleteGlassMessage ∧
      summaryShown (displayResults p) = false) ∧
    noDataMessage ≠ noCompleteGlassMessage := by
  refine ⟨?_, ?_, by decide⟩
  · rintro (hn | he)
    · unfold displayResults
      rw [hn]
      exact ⟨rfl, rfl, rfl⟩
    · unfold displayResults
      rw [he]
      simp [placeholderMessage, summaryShown]
  · intro refs hrc hne hempty
    have hnil : referencesWithGlass p = [] := by
      unfold referencesWithGlass
      rw [hrc]
      rw [List.filter_eq_nil_iff]
      intro r hr
      have hbucket : glassByRef (glassList p) (refKey r) = [] := by
        rw [glassByRef, List.filter_eq_nil_iff]
        intro g hg
        simp only [Bool.and_eq_true, beq_iff_eq, not_and]
        intro hkey
        rw [hempty r hr g hg hkey]
        exact Bool.false_ne_true
      simp [hbucket]
    have hres : displayResults p = ProjectionResult.noCompleteGlass := by
      unfold displayResults
      split
      · next heq =>
        rw [hrc] at heq
        cases heq
      · next refs2 heq =>
        rw [hrc] at heq
        injection heq with heq2
        subst heq2
        rw [if_pos (List.length_pos.mpr hne), hnil]
        rfl
    rw [hres]
    exact ⟨rfl, rfl, rfl⟩

/-- Closed instance of claim C6 at a payload with no reference_code and at a
payload whose single matching glass entry has all-falsy measurements. -/
theorem claim_C6_witness :
    displayResults pNoRef = ProjectionResult.noData ∧
    displayResults pAllEmpty = ProjectionResult.noCompleteGlass :=
  ⟨((claim_C6 pNoRef).1 (Or.inl rfl)).1,
   ((claim_C6 pAllEmpty).2.1 [ref5] rfl (by decide) (by decide)).1⟩

/-- Counterexample to claim C7 as stated: the payload p7 emits a row whose
Qty value is the number 0, which is neither missing nor an empty string, yet
its cell is rendered as the dash placeholder. -/
theorem claim_C7_counterexample :
    displayResults p7 = ProjectionResult.table
      [{ index := 1, page := JSValue.vNum 1, no := JSValue.vNum 1,
         referenceCode := JSValue.vStr "A", GW := JSValue.vStr "10",
         GH := JSValue.vStr "20", Qty := JSValue.vNum 0 }]
      0 1 (JSValue.vNum 1) ∧
    cellText (JSValue.vNum 0) = "-" ∧
    JSValue.vNum 0 ≠ JSValue.vUndef ∧
    JSValue.vNum 0 ≠ JSValue.vNull ∧
    JSValue.vNum 0 ≠ JSValue.vStr "" := by
  decide

/-- Claim C7 as amended: on every emitted row a Qty of the string abc
contributes 0 to the total yet renders verbatim, and the dash placeholder is
substituted in a measurement cell exactly when the value is falsy (missing,
null, the empty string, or the number 0), never for a truthy value. -/
theorem claim_C7 (p : Payload) (rows : List DisplayRow) (tg : Int) (tr : Nat)
    (trf : JSValue)
    (h : displayResults p = ProjectionResult.table rows tg tr trf)
    (row : DisplayRow) (hrow : row ∈ rows) :
    (row.Qty = JSValue.vStr "abc" →
      jsParseIntOr0 row.Qty = 0 ∧ cellText row.Qty = "abc") ∧
    (∀ v, v = row.GW ∨ v = row.GH ∨ v = row.Qty →
      (truthy v = false → cellText v = "-") ∧
      (truthy v = true → cellText v = toStr v)) := by
  refine ⟨?_, ?_⟩
  · intro habc
    rw [habc]
    exact ⟨by decide, by decide⟩
  · intro v _
    constructor
    · intro hf
      rw [cellText, hf]
      rfl
    · intro ht
      rw [cellText, ht]
      rfl

/-- Closed instance of the amended claim C7 at the payload whose emitted row
has Qty abc. -/
theorem claim_C7_witness :
    jsParseIntOr0 rowAbc.Qty = 0 ∧ cellText rowAbc.Qty = "abc" :=
  (claim_C7 pAbc [rowAbc] 0 1 (JSValue.vNum 1) (by decide) rowAbc
    (List.mem_singleton.mpr rfl)).1 rfl

/-- Counterexample to claim C8 as stated: a non-2xx response whose body
parses and carries a server error string shows that string verbatim, not the
generic localized message, even though its success flag is true. -/
theorem claim_C8_counterexample :
    (handleSubmit cexOutcome).errorMessage = some "SERVER_SAYS_X" ∧
    "SERVER_SAYS_X" ≠ connectErrorMessage ∧
    "SERVER_SAYS_X" ≠ unknownErrorMessage ∧
    (handleSubmit cexOutcome).resultsShown = false := by
  decide

/-- Claim C8 as amended: the generic connection message is shown exactly for
a network-level exception or a body that fails to parse as JSON; any parsed
response failing the ok-and-success test shows the server error string
verbatim with the generic unknown-error fallback when it is absent or empty,
regardless of HTTP status; and whenever an error message is shown the result
and download regions stay hidden. -/
theorem claim_C8 :
    (handleSubmit FetchOutcome.networkError).errorMessage = some connectErrorMessage ∧
    (∀ ok, (handleSubmit (FetchOutcome.response ok none)).errorMessage =
      some connectErrorMessage) ∧
    (∀ ok b, (ok && b.success) = false →
      (handleSubmit (FetchOutcome.response ok (some b))).errorMessage =
        some (jsOrElse b.error unknownErrorMessage)) ∧
    (∀ o, (handleSubmit o).errorMessage ≠ none →
      (handleSubmit o).resultsShown = false ∧
      (handleSubmit o).downloadShown = false) := by
  refine ⟨rfl, fun ok => rfl, ?_, ?_⟩
  · intro ok b hfail
    rw [handleSubmit]
    rw [if_neg (by rw [hfail]; exact Bool.false_ne_true)]
  · intro o herr
    match o with
    | FetchOutcome.networkError => exact ⟨rfl, rfl⟩
    | FetchOutcome.response ok obody =>
      match obody with
      | none => exact ⟨rfl, rfl⟩
      | some b =>
        rw [handleSubmit] at herr ⊢
        by_cases hok : (ok && b.success) = true
        · rw [if_pos hok] at herr ⊢
          match hd : b.data with
          | none => exact ⟨rfl, rfl⟩
          | some d =>
            rw [hd] at herr
            exact absurd rfl herr
        · rw [if_neg hok] at herr ⊢
          exact ⟨rfl, rfl⟩

/-- Closed instance of the amended claim C8: a non-2xx response with error E1
shows E1, and a network exception leaves the results hidden. -/
theorem claim_C8_witness :
    (handleSubmit (FetchOutcome.response false (some body8))).errorMessage =
      some (jsOrElse body8.error unknownErrorMessage) ∧
    (handleSubmit FetchOutcome.networkError).resultsShown = false :=
  ⟨claim_C8.2.2.1 false body8 (by decide),
   (claim_C8.2.2.2 FetchOutcome.networkError (by decide)).1⟩

/-- Claim C9: with a dash inside an identifying field, a glass entry whose
field pair differs componentwise from the reference entry is still matched
and emitted under it, because the join compares concatenated key strings. -/
theorem claim_C9 :
    refKey ref9 = glassKey glass9 ∧
    glass9.ref_no ≠ ref9.no ∧
    glass9.ref_code ≠ ref9.referenceCode ∧
    displayResults p9 = ProjectionResult.table
      [{ index := 1, page := JSValue.vNum 7, no := JSValue.vStr "1-2",
         referenceCode := JSValue.vStr "3", GW := JSValue.vStr "10",
         GH := JSValue.vStr "20", Qty := JSValue.vStr "5" }]
      5 1 (JSValue.vNum 1) := by
  decide

/-- Claim C10: the non-empty-measurement test is JavaScript truthiness: the
four falsy values fail it, a glass entry with all-falsy measurements never
enters a bucket and no emitted row has all-falsy measurements, a measurement
equal to the number 0 renders as the dash, and a Qty of the number 0
contributes 0 to the total. -/
theorem claim_C10 :
    (∀ v ∈ falsyValues, truthy v = false) ∧
    (∀ g : GlassEntry, g.GW ∈ falsyValues → g.GH ∈ falsyValues →
      g.Qty ∈ falsyValues →
      hasMeasurement g = false ∧ ∀ gs k, g ∉ glassByRef gs k) ∧
    (∀ p rows tg tr trf,
      displayResults p = ProjectionResult.table rows tg tr trf →
      ∀ row ∈ rows, truthy row.GW = true ∨ truthy row.GH = true ∨
        truthy row.Qty = true) ∧
    cellText (JSValue.vNum 0) = "-" ∧
    jsParseIntOr0 (JSValue.vNum 0) = 0 := by
  have hfalsy : ∀ v ∈ falsyValues, truthy v = false := by
    intro v hv
    rw [falsyValues] at hv
    fin_cases hv <;> rfl
  refine ⟨hfalsy, ?_, ?_, by decide, by decide⟩
  · intro g hgw hgh hq
    have hm : hasMeasurement g = false := by
      rw [hasMeasurement, hfalsy g.GW hgw, hfalsy g.GH hgh, hfalsy g.Qty hq]
      rfl
    refine ⟨hm, ?_⟩
    intro gs k hg
    have := (mem_glassByRef hg).2.2
    rw [hm] at this
    exact Bool.false_ne_true this
  · intro p rows tg tr trf h row hrow
    obtain ⟨hne, hrows, _, _, _⟩ := table_inv h
    rw [hrows] at hrow
    obtain ⟨r, hr, _, _, _, g, hg, hgw, hgh, hq⟩ := mem_allRows hrow
    have hm := (mem_glassByRef hg).2.2
    rw [hasMeasurement] at hm
    rw [hgw, hgh, hq]
    rcases Bool.or_eq_true_iff.mp hm with h1 | h2
    · rcases Bool.or_eq_true_iff.mp h1 with ha | hb
      · exact Or.inl ha
      · exact Or.inr (Or.inl hb)
    · exact Or.inr (Or.inr h2)

/-- Closed instance of claim C10 at the all-falsy glass entry. -/
theorem claim_C10_witness :
    hasMeasurement gFalsy = false ∧ cellText (JSValue.vNum 0) = "-" :=
  ⟨(claim_C10.2.1 gFalsy (by decide) (by decide) (by decide)).1,
   claim_C10.2.2.2.1⟩

end Format
